import Mathlib

/-!
Shallow embedding of sigpair-admin-js (src/index.ts): an admin HTTP client
with two domain operations (createUser, genUserToken) built on a single
request executor (handleRequest) that performs one authenticated JSON POST.

The transport (axios) is modelled by its observable contract: a network
behaviour either fails at the transport level (DNS, connection refused, ...)
or delivers an HTTP response.  axios.post with the default validateStatus
resolves exactly on 2xx statuses and rejects otherwise with an AxiosError
carrying the response; a transport-level failure rejects with an AxiosError
carrying no response.  JavaScript string interpolation of an optional
chain that hits undefined produces the text "undefined", and interpolation
of an Error object produces "Error: " followed by its message; both are
modelled explicitly below.
-/

/-- A JSON value, as serialized onto the wire by axios from a JS object.
Only the shapes the client actually sends are needed. -/
inductive Json where
  | str (s : String)
  | num (n : Int)
  | obj (fields : List (String × Json))
deriving Repr

/-- The observable part of an axios HTTP response: status, statusText and
the decoded body (typed, since the source casts without validation). -/
structure AxiosResponse (R : Type) where
  status : Nat
  statusText : String
  data : R
deriving Repr

/-- A JavaScript value thrown during the exchange.  Within this client the
only throwables are an AxiosError (from axios itself, with the response
attached when one was received) and the plain Error thrown by the status
check inside the try block. -/
inductive Thrown (R : Type) where
  | axiosError (response : Option (AxiosResponse R)) (description : String)
  | jsError (message : String)

/-- What the network does for one POST: fail before any response is
obtained, or deliver a response. -/
inductive NetResult (R : Type) where
  | transportError (description : String)
  | response (r : AxiosResponse R)

/-- Interpolation of an optionally-chained statusText: undefined prints as
the text "undefined". -/
def jsShowOptStr : Option String → String
  | none => "undefined"
  | some s => s

/-- Interpolation of an optionally-chained status code. -/
def jsShowOptNat : Option Nat → String
  | none => "undefined"
  | some n => toString n

/-- axios.post with the default validateStatus: resolve on 2xx, reject a
received non-2xx response as an AxiosError carrying it, reject a transport
failure as an AxiosError carrying no response. -/
def axios.post {R : Type} (net : NetResult R) :
    Except (Thrown R) (AxiosResponse R) :=
  match net with
  | .transportError d => .error (.axiosError none d)
  | .response r =>
      if 200 ≤ r.status ∧ r.status < 300 then
        .ok r
      else
        .error (.axiosError (some r)
          ("Request failed with status code " ++ toString r.status))

/-- The body of the try block after axios.post resolves:
if (response.status == 200) return response.data else throw new Error(...). -/
def tryStatusCheck {R : Type} (r : AxiosResponse R) : Except (Thrown R) R :=
  if r.status == 200 then
    .ok r.data
  else
    .error (.jsError
      ("Failed to make request, error:" ++ r.statusText ++ ", code: "
        ++ toString r.status))

/-- The catch block of handleRequest: an AxiosError is reported through its
optional response fields, anything else through its JS string form. -/
def catchBlock {R : Type} : Thrown R → String
  | .axiosError response _ =>
      "Failed to make request, error:"
        ++ jsShowOptStr (response.map (fun r => r.statusText))
        ++ ", code: "
        ++ jsShowOptNat (response.map (fun r => r.status))
  | .jsError m =>
      "Failed to make request, error:" ++ ("Error: " ++ m)

/-- handleRequest: one POST inside try/catch; any throwable from the axios
call or from the status check is rewrapped by the catch block into a single
Error whose message is the produced string. -/
def handleRequest {R : Type} (net : NetResult R) : Except String R :=
  match (axios.post net).bind tryStatusCheck with
  | .ok data => .ok data
  | .error e => .error (catchBlock e)

/-- The admin client: base url and admin token, set at construction. -/
structure SigpairAdmin where
  baseUrl : String
  adminToken : String

/-- One outbound POST request as the client hands it to axios. -/
structure Request where
  url : String
  headers : List (String × String)
  body : Json

structure CreateUserPayload where
  name : String

structure CreateUserResponse where
  user_id : Int
deriving Repr

structure GenUserTokenPayload where
  user_id : Int
  lifetime : Int

structure GenUserTokenResponse where
  token : String
deriving Repr

/-- JSON serialization of CreateUserPayload as axios performs it. -/
def CreateUserPayload.toJson (p : CreateUserPayload) : Json :=
  Json.obj [("name", Json.str p.name)]

/-- JSON serialization of GenUserTokenPayload as axios performs it. -/
def GenUserTokenPayload.toJson (p : GenUserTokenPayload) : Json :=
  Json.obj [("user_id", Json.num p.user_id), ("lifetime", Json.num p.lifetime)]

/-- createPostRequest: join base url and route with a slash and build the
two headers. -/
def SigpairAdmin.createPostRequest (c : SigpairAdmin) (route : String) :
    String × List (String × String) :=
  (c.baseUrl ++ "/" ++ route,
   [("Content-Type", "application/json"),
    ("Authorization", "Bearer " ++ c.adminToken)])

/-- createUser: build the route and payload, delegate to handleRequest,
project user_id.  The network is a parameter; the single request issued is
returned alongside the outcome so theorems can speak about it. -/
def SigpairAdmin.createUser (c : SigpairAdmin) (name : String)
    (net : Request → NetResult CreateUserResponse) :
    Request × Except String Int :=
  let p := c.createPostRequest "v1/create-user"
  let createPayload : CreateUserPayload := { name := name }
  let req : Request := { url := p.1, headers := p.2, body := createPayload.toJson }
  (req, (handleRequest (net req)).map (fun r => r.user_id))

/-- genUserToken: lifetime is optional and nullish-coalesced to 3600
(lifetime ?? 3600); a nullish argument (omitted, undefined or null) is
modelled as none. -/
def SigpairAdmin.genUserToken (c : SigpairAdmin) (userId : Int)
    (lifetime : Option Int) (net : Request → NetResult GenUserTokenResponse) :
    Request × Except String String :=
  let p := c.createPostRequest "v1/user-token"
  let createPayload : GenUserTokenPayload :=
    { user_id := userId, lifetime := lifetime.getD 3600 }
  let req : Request := { url := p.1, headers := p.2, body := createPayload.toJson }
  (req, (handleRequest (net req)).map (fun r => r.token))

/-- The literal head of every error message produced by handleRequest. -/
def failedMsgHead : String := "Failed to make request, error:"

/-- Does the character list starting here begin with the pattern. -/
def startsWithL : List Char → List Char → Bool
  | [], _ => true
  | _ :: _, [] => false
  | n :: ns, h :: hs => n == h && startsWithL ns hs

/-- Does the pattern occur anywhere in the character list. -/
def occursL (needle : List Char) : List Char → Bool
  | [] => startsWithL needle []
  | h :: hs => startsWithL needle (h :: hs) || occursL needle hs

/-- Executable substring test on strings. -/
def strContains (hay needle : String) : Bool :=
  occursL needle.data hay.data

/-- The substring n occurs in hay: hay splits as a, then n, then b. -/
def ContainsStr (hay n : String) : Prop := ∃ a b, hay = a ++ (n ++ b)

theorem startsWithL_self_append (n rest : List Char) :
    startsWithL n (n ++ rest) = true := by
  induction n with
  | nil => rfl
  | cons c cs ih => simp [startsWithL, ih]

theorem occursL_of_startsWithL (n hay : List Char) (h : startsWithL n hay = true) :
    occursL n hay = true := by
  cases hay with
  | nil => simpa [occursL] using h
  | cons c cs => simp [occursL, h]

theorem occursL_mid (n pre rest : List Char) : occursL n (pre ++ (n ++ rest)) = true := by
  induction pre with
  | nil => exact occursL_of_startsWithL n (n ++ rest) (startsWithL_self_append n rest)
  | cons c cs ih => simp [occursL, ih]

theorem strContains_of_containsStr (hay n : String) (h : ContainsStr hay n) :
    strContains hay n = true := by
  obtain ⟨a, b, rfl⟩ := h
  have h2 := occursL_mid n.data a.data b.data
  simpa [strContains, String.data_append] using h2

theorem handleRequest_transport {R : Type} (d : String) :
    handleRequest (R := R) (.transportError d) =
      .error "Failed to make request, error:undefined, code: undefined" := rfl

theorem handleRequest_200 {R : Type} (r : AxiosResponse R) (h : r.status = 200) :
    handleRequest (.response r) = .ok r.data := by
  simp [handleRequest, axios.post, tryStatusCheck, h, Except.bind]

theorem handleRequest_non2xx {R : Type} (r : AxiosResponse R)
    (h : ¬ (200 ≤ r.status ∧ r.status < 300)) :
    handleRequest (.response r) =
      .error ("Failed to make request, error:"
        ++ (r.statusText ++ (", code: " ++ toString r.status))) := by
  simp [handleRequest, axios.post, tryStatusCheck, catchBlock, h, Except.bind,
    jsShowOptStr, jsShowOptNat, String.append_assoc]

theorem handleRequest_2xx_not200 {R : Type} (r : AxiosResponse R)
    (h2 : 200 ≤ r.status ∧ r.status < 300) (h : r.status ≠ 200) :
    handleRequest (.response r) =
      .error ("Failed to make request, error:" ++ ("Error: "
        ++ ("Failed to make request, error:"
          ++ (r.statusText ++ (", code: " ++ toString r.status))))) := by
  simp [handleRequest, axios.post, tryStatusCheck, catchBlock, h2, h, Except.bind,
    String.append_assoc]

theorem handleRequest_non200 {R : Type} (r : AxiosResponse R) (h : r.status ≠ 200) :
    ∃ msg, handleRequest (.response r) = .error msg
      ∧ ContainsStr msg (toString r.status) ∧ ContainsStr msg r.statusText := by
  by_cases h2 : 200 ≤ r.status ∧ r.status < 300
  · refine ⟨_, handleRequest_2xx_not200 r h2 h, ?_, ?_⟩
    · refine ⟨"Failed to make request, error:" ++ ("Error: "
        ++ ("Failed to make request, error:" ++ (r.statusText ++ ", code: "))), "", ?_⟩
      simp only [String.append_assoc, String.append_empty]
    · refine ⟨"Failed to make request, error:" ++ ("Error: "
        ++ "Failed to make request, error:"), ", code: " ++ toString r.status, ?_⟩
      simp only [String.append_assoc]
  · refine ⟨_, handleRequest_non2xx r h2, ?_, ?_⟩
    · refine ⟨"Failed to make request, error:" ++ (r.statusText ++ ", code: "), "", ?_⟩
      simp only [String.append_assoc, String.append_empty]
    · exact ⟨"Failed to make request, error:", ", code: " ++ toString r.status, by
        simp only [String.append_assoc]⟩

theorem map_error_iff {α β : Type} (e : Except String α) (f : α → β) (msg : String) :
    e.map f = .error msg ↔ e = .error msg := by
  cases e <;> simp [Except.map]

theorem map_ok_iff {α β : Type} (e : Except String α) (f : α → β) (v : β) :
    e.map f = .ok v ↔ ∃ r, e = .ok r ∧ v = f r := by
  cases e <;> simp [Except.map, eq_comm]

theorem catchBlock_head {R : Type} (e : Thrown R) :
    ∃ rest, catchBlock e = failedMsgHead ++ rest := by
  cases e with
  | axiosError resp d =>
      refine ⟨jsShowOptStr (resp.map fun r => r.statusText)
        ++ (", code: " ++ jsShowOptNat (resp.map fun r => r.status)), ?_⟩
      simp only [catchBlock, failedMsgHead, String.append_assoc]
  | jsError m => exact ⟨"Error: " ++ m, rfl⟩

theorem handleRequest_error_head {R : Type} (net : NetResult R) (msg : String)
    (h : handleRequest net = .error msg) : ∃ rest, msg = failedMsgHead ++ rest := by
  cases hm : (axios.post net).bind tryStatusCheck with
  | ok d => simp [handleRequest, hm] at h
  | error e =>
      simp only [handleRequest, hm] at h
      obtain ⟨rest, hr⟩ := catchBlock_head e
      exact ⟨rest, by rw [← hr]; exact (Except.error.injEq _ _).mp h.symm⟩

/-- Claim C1 (counterexample to the claim as stated): with the transport
failing before any response (connection refused), createUser fails with the
fixed message interpolating the absent response fields as "undefined"; the
underlying transport error description does NOT occur in that message. -/
theorem createUser_transport_counterexample :
    (SigpairAdmin.createUser ⟨"http://localhost:8080", "secret"⟩ "John Doe"
        (fun _ => NetResult.transportError "connect ECONNREFUSED 127.0.0.1:8080")).2
      = Except.error "Failed to make request, error:undefined, code: undefined"
    ∧ ¬ ContainsStr "Failed to make request, error:undefined, code: undefined"
        "connect ECONNREFUSED 127.0.0.1:8080" := by
  refine ⟨rfl, fun hcon => ?_⟩
  have h := strContains_of_containsStr _ _ hcon
  exact absurd h (by decide)

/-- Claim C1 (amended): when the transport layer fails before any HTTP
response is obtained, createUser and genUserToken fail with the constant
message "Failed to make request, error:undefined, code: undefined" (the
catch block interpolates the AxiosError response fields, absent on a
transport failure, as "undefined"); the message does not embed the
underlying transport error description. -/
theorem transport_failure_message (c : SigpairAdmin) (name : String)
    (userId : Int) (lifetime : Option Int) (d : String) :
    (c.createUser name (fun _ => .transportError d)).2
        = .error "Failed to make request, error:undefined, code: undefined"
    ∧ (c.genUserToken userId lifetime (fun _ => .transportError d)).2
        = .error "Failed to make request, error:undefined, code: undefined" :=
  ⟨rfl, rfl⟩

/-- Claim C2: whenever createUser or genUserToken receives an HTTP response
whose status is not 200, the call fails with an error message containing
that status code and status text, and no result value is returned. -/
theorem non200_fails_with_status (c : SigpairAdmin) (name : String)
    (userId : Int) (lifetime : Option Int)
    (netU : Request → NetResult CreateUserResponse)
    (netT : Request → NetResult GenUserTokenResponse)
    (ru : AxiosResponse CreateUserResponse) (rt : AxiosResponse GenUserTokenResponse)
    (hu : netU (c.createUser name netU).1 = .response ru)
    (ht : netT (c.genUserToken userId lifetime netT).1 = .response rt)
    (hu200 : ru.status ≠ 200) (ht200 : rt.status ≠ 200) :
    (∃ msg, (c.createUser name netU).2 = .error msg
      ∧ ContainsStr msg (toString ru.status) ∧ ContainsStr msg ru.statusText)
    ∧ (∃ msg, (c.genUserToken userId lifetime netT).2 = .error msg
      ∧ ContainsStr msg (toString rt.status) ∧ ContainsStr msg rt.statusText) := by
  constructor
  · obtain ⟨msg, hm, hc, hs⟩ := handleRequest_non200 ru hu200
    refine ⟨msg, ?_, hc, hs⟩
    have : (handleRequest (netU (c.createUser name netU).1)).map
        (fun r => r.user_id) = Except.error msg := by rw [hu, hm]; rfl
    exact this
  · obtain ⟨msg, hm, hc, hs⟩ := handleRequest_non200 rt ht200
    refine ⟨msg, ?_, hc, hs⟩
    have : (handleRequest (netT (c.genUserToken userId lifetime netT).1)).map
        (fun r => r.token) = Except.error msg := by rw [ht, hm]; rfl
    exact this

/-- Claim C2 witness: a 404 response makes createUser and genUserToken fail
with a message containing 404 and the status text. -/
theorem non200_fails_with_status_witness :
    (∃ msg, (SigpairAdmin.createUser ⟨"http://localhost:8080", "secret"⟩ "John Doe"
        (fun _ => NetResult.response ⟨404, "Not Found", ⟨0⟩⟩)).2 = .error msg
      ∧ ContainsStr msg "404" ∧ ContainsStr msg "Not Found")
    ∧ (∃ msg, (SigpairAdmin.genUserToken ⟨"http://localhost:8080", "secret"⟩ 7 none
        (fun _ => NetResult.response ⟨404, "Not Found", ⟨"t"⟩⟩)).2 = .error msg
      ∧ ContainsStr msg "404" ∧ ContainsStr msg "Not Found") :=
  non200_fails_with_status ⟨"http://localhost:8080", "secret"⟩ "John Doe" 7 none
    (fun _ => NetResult.response ⟨404, "Not Found", ⟨0⟩⟩)
    (fun _ => NetResult.response ⟨404, "Not Found", ⟨"t"⟩⟩)
    ⟨404, "Not Found", ⟨0⟩⟩ ⟨404, "Not Found", ⟨"t"⟩⟩ rfl rfl
    (by decide) (by decide)

/-- Claim C3: the domain methods add no error handling of their own: the
call fails with exactly the message the executor failed with (unchanged, no
added context), and succeeds with exactly the projected field of the
executor result; every call is either entirely an error or entirely a fully
computed value. -/
theorem domain_propagates_executor (c : SigpairAdmin) (name : String)
    (userId : Int) (lifetime : Option Int)
    (netU : Request → NetResult CreateUserResponse)
    (netT : Request → NetResult GenUserTokenResponse) :
    (∀ msg, (c.createUser name netU).2 = .error msg ↔
        handleRequest (netU (c.createUser name netU).1) = .error msg)
    ∧ (∀ v, (c.createUser name netU).2 = .ok v ↔
        ∃ r, handleRequest (netU (c.createUser name netU).1) = .ok r ∧ v = r.user_id)
    ∧ (∀ msg, (c.genUserToken userId lifetime netT).2 = .error msg ↔
        handleRequest (netT (c.genUserToken userId lifetime netT).1) = .error msg)
    ∧ (∀ tok, (c.genUserToken userId lifetime netT).2 = .ok tok ↔
        ∃ r, handleRequest (netT (c.genUserToken userId lifetime netT).1) = .ok r
          ∧ tok = r.token) :=
  ⟨fun msg => map_error_iff _ _ msg, fun v => map_ok_iff _ _ v,
   fun msg => map_error_iff _ _ msg, fun tok => map_ok_iff _ _ tok⟩

/-- Claim C4: createUser issues its single POST to baseUrl/v1/create-user
(joined with a slash) with JSON body containing exactly the name field, and
on a status-200 response returns the user_id field of the decoded body
unchanged. -/
theorem createUser_request_and_result (c : SigpairAdmin) (name : String)
    (net : Request → NetResult CreateUserResponse) :
    (c.createUser name net).1.url = c.baseUrl ++ "/" ++ "v1/create-user"
    ∧ (c.createUser name net).1.body = Json.obj [("name", Json.str name)]
    ∧ ∀ resp, net (c.createUser name net).1 = .response resp → resp.status = 200 →
        (c.createUser name net).2 = .ok resp.data.user_id := by
  refine ⟨rfl, rfl, fun resp h h200 => ?_⟩
  have : (handleRequest (net (c.createUser name net).1)).map
      (fun r => r.user_id) = Except.ok resp.data.user_id := by
    rw [h, handleRequest_200 resp h200]; rfl
  exact this

/-- Claim C4 witness: a mock 200 response with user_id 10000 makes
createUser return 10000. -/
theorem createUser_request_and_result_witness :
    (SigpairAdmin.createUser ⟨"http://localhost:8080", "secret"⟩ "John Doe"
        (fun _ => NetResult.response ⟨200, "OK", ⟨10000⟩⟩)).2 = Except.ok 10000 :=
  (createUser_request_and_result ⟨"http://localhost:8080", "secret"⟩ "John Doe"
      (fun _ => NetResult.response ⟨200, "OK", ⟨10000⟩⟩)).2.2
    ⟨200, "OK", ⟨10000⟩⟩ rfl rfl

/-- Claim C5: with an explicit lifetime, genUserToken issues its single POST
to baseUrl/v1/user-token (joined with a slash) with JSON body containing the
user_id and lifetime fields, and on a status-200 response returns the token
field of the decoded body. -/
theorem genUserToken_request_and_result (c : SigpairAdmin)
    (userId lifetimeSeconds : Int)
    (net : Request → NetResult GenUserTokenResponse) :
    (c.genUserToken userId (some lifetimeSeconds) net).1.url
        = c.baseUrl ++ "/" ++ "v1/user-token"
    ∧ (c.genUserToken userId (some lifetimeSeconds) net).1.body
        = Json.obj [("user_id", Json.num userId),
                    ("lifetime", Json.num lifetimeSeconds)]
    ∧ ∀ resp, net (c.genUserToken userId (some lifetimeSeconds) net).1
          = .response resp → resp.status = 200 →
        (c.genUserToken userId (some lifetimeSeconds) net).2
          = .ok resp.data.token := by
  refine ⟨rfl, rfl, fun resp h h200 => ?_⟩
  have : (handleRequest (net (c.genUserToken userId (some lifetimeSeconds) net).1)).map
      (fun r => r.token) = Except.ok resp.data.token := by
    rw [h, handleRequest_200 resp h200]; rfl
  exact this

/-- Claim C5 witness: a mock 200 response with token abc makes genUserToken
with explicit lifetime 3600 return abc. -/
theorem genUserToken_request_and_result_witness :
    (SigpairAdmin.genUserToken ⟨"http://localhost:8080", "secret"⟩ 10000
        (some 3600) (fun _ => NetResult.response ⟨200, "OK", ⟨"abc"⟩⟩)).2
      = Except.ok "abc" :=
  (genUserToken_request_and_result ⟨"http://localhost:8080", "secret"⟩ 10000 3600
      (fun _ => NetResult.response ⟨200, "OK", ⟨"abc"⟩⟩)).2.2
    ⟨200, "OK", ⟨"abc"⟩⟩ rfl rfl

/-- Claim C6: when the lifetime argument is omitted (nullish, modelled as
none), the request body sent contains the lifetime field equal to 3600; the
default is applied by the client, the field is present on the wire. -/
theorem genUserToken_default_lifetime (c : SigpairAdmin) (userId : Int)
    (net : Request → NetResult GenUserTokenResponse) :
    (c.genUserToken userId none net).1.body
      = Json.obj [("user_id", Json.num userId), ("lifetime", Json.num 3600)] :=
  rfl

/-- Claim C7: the client is a pure value, never mutated (both operations are
functions of the client that return no modified client), and every request
issued by either operation carries exactly the headers Content-Type:
application/json and Authorization: Bearer followed by the credential as
supplied at construction; the headers of any two calls on the same client
are equal since both equal the same constant list. -/
theorem client_headers_fixed (c : SigpairAdmin) (name : String) (userId : Int)
    (lifetime : Option Int) (netU : Request → NetResult CreateUserResponse)
    (netT : Request → NetResult GenUserTokenResponse) :
    (c.createUser name netU).1.headers
        = [("Content-Type", "application/json"),
           ("Authorization", "Bearer " ++ c.adminToken)]
    ∧ (c.genUserToken userId lifetime netT).1.headers
        = [("Content-Type", "application/json"),
           ("Authorization", "Bearer " ++ c.adminToken)] :=
  ⟨rfl, rfl⟩

/-- Claim C8: every error either operation raises has a message beginning
with the literal head Failed to make request, error: regardless of the
cause of failure. -/
theorem errors_have_failed_head (c : SigpairAdmin) (name : String)
    (userId : Int) (lifetime : Option Int)
    (netU : Request → NetResult CreateUserResponse)
    (netT : Request → NetResult GenUserTokenResponse) :
    (∀ msg, (c.createUser name netU).2 = .error msg →
        ∃ rest, msg = failedMsgHead ++ rest)
    ∧ (∀ msg, (c.genUserToken userId lifetime netT).2 = .error msg →
        ∃ rest, msg = failedMsgHead ++ rest) := by
  constructor
  · intro msg h
    have h2 : (handleRequest (netU (c.createUser name netU).1)).map
        (fun r => r.user_id) = Except.error msg := h
    exact handleRequest_error_head (netU (c.createUser name netU).1) msg
      ((map_error_iff _ _ msg).mp h2)
  · intro msg h
    have h2 : (handleRequest (netT (c.genUserToken userId lifetime netT).1)).map
        (fun r => r.token) = Except.error msg := h
    exact handleRequest_error_head (netT (c.genUserToken userId lifetime netT).1) msg
      ((map_error_iff _ _ msg).mp h2)

/-- Claim C8 witness: concrete failing calls of both operations, one by
transport failure and one by a 404 response, each yield a message with the
literal head. -/
theorem errors_have_failed_head_witness :
    (∃ rest, "Failed to make request, error:undefined, code: undefined"
        = failedMsgHead ++ rest)
    ∧ (∃ rest, "Failed to make request, error:Not Found, code: 404"
        = failedMsgHead ++ rest) :=
  ⟨(errors_have_failed_head ⟨"http://localhost:8080", "secret"⟩ "John Doe" 7 none
      (fun _ => NetResult.transportError "connect ECONNREFUSED")
      (fun _ => NetResult.transportError "connect ECONNREFUSED")).1
    "Failed to make request, error:undefined, code: undefined" rfl,
   (errors_have_failed_head ⟨"http://localhost:8080", "secret"⟩ "John Doe" 7 none
      (fun _ => NetResult.response ⟨404, "Not Found", ⟨0⟩⟩)
      (fun _ => NetResult.response ⟨404, "Not Found", ⟨"t"⟩⟩)).2
    "Failed to make request, error:Not Found, code: 404" rfl⟩

/-- Claim C9: a response whose status is 2xx but not exactly 200 is resolved
by axios, rejected by the status check inside the try block, and its Error
is re-wrapped by the same catch block: the resulting message carries the
literal head twice and still contains the original status code. -/
theorem status2xx_not200_double_wrap {R : Type} (r : AxiosResponse R)
    (hlo : 200 ≤ r.status) (hhi : r.status < 300) (h : r.status ≠ 200) :
    handleRequest (.response r) =
      .error (failedMsgHead ++ ("Error: " ++ (failedMsgHead
        ++ (r.statusText ++ (", code: " ++ toString r.status)))))
    ∧ ContainsStr (failedMsgHead ++ ("Error: " ++ (failedMsgHead
        ++ (r.statusText ++ (", code: " ++ toString r.status)))))
        (toString r.status) := by
  constructor
  · exact handleRequest_2xx_not200 r ⟨hlo, hhi⟩ h
  · refine ⟨failedMsgHead ++ ("Error: " ++ (failedMsgHead
      ++ (r.statusText ++ ", code: "))), "", ?_⟩
    simp only [String.append_assoc, String.append_empty]

/-- Claim C9 witness: a 204 No Content response produces the double-wrapped
message containing 204. -/
theorem status2xx_not200_double_wrap_witness :
    handleRequest (R := CreateUserResponse) (.response ⟨204, "No Content", ⟨0⟩⟩) =
      .error (failedMsgHead ++ ("Error: " ++ (failedMsgHead
        ++ ("No Content" ++ (", code: " ++ toString (204 : Nat))))))
    ∧ ContainsStr (failedMsgHead ++ ("Error: " ++ (failedMsgHead
        ++ ("No Content" ++ (", code: " ++ toString (204 : Nat)))))) (toString (204 : Nat)) :=
  status2xx_not200_double_wrap ⟨204, "No Content", ⟨0⟩⟩
    (by decide) (by decide) (by decide)

/-- Claim C10: the 3600 default applies exactly to a nullish lifetime
argument (omitted, undefined or null, modelled as none); any explicitly
passed value, including 0, is transmitted unchanged as the lifetime field of
the request body. -/
theorem genUserToken_lifetime_nullish_only (c : SigpairAdmin) (userId v : Int)
    (net : Request → NetResult GenUserTokenResponse) :
    (c.genUserToken userId (some v) net).1.body
        = Json.obj [("user_id", Json.num userId), ("lifetime", Json.num v)]
    ∧ (c.genUserToken userId none net).1.body
        = Json.obj [("user_id", Json.num userId), ("lifetime", Json.num 3600)] :=
  ⟨rfl, rfl⟩
